import Mathlib

/-!
Shallow embedding of the EV3 extension core
(`src/extensions/scratch3_ev3/index.js`): the motor-command encoder, the
frame builder, the base64 transport codec, the public motor/beep
operations, and the Bluetooth connection state machine, together with
theorems settling the specification's claims about them.

JavaScript numeric semantics: the bitwise operators `&` and `>>` first
coerce their operands to 32-bit two's-complement integers (ToInt32) and
`>>` is an arithmetic shift; we model integers as `ℤ` and make the
32-bit coercion explicit.
-/

/-- JavaScript ToInt32: reduce an integer into `[-2^31, 2^31)`
(the coercion applied by the bitwise operators). -/
def toInt32 (x : ℤ) : ℤ := (x + 2 ^ 31) % 2 ^ 32 - 2 ^ 31

/-- JavaScript signed right shift `x >> k`: ToInt32 then arithmetic
shift, i.e. floor division by `2 ^ k`. -/
def jsShr (x : ℤ) (k : ℕ) : ℤ := toInt32 x / 2 ^ k

/-- JavaScript `x & 0xff`: ToInt32 then mask to the low byte. -/
def jsAnd255 (x : ℤ) : ℤ := toInt32 x % 256

/-! ### The `PRIMITIVE` constants of `Scratch3Ev3Blocks` -/

def LAYER : ℤ := 0x00
def NUM8 : ℤ := 0x81
def NUM16 : ℤ := 0x82
def NUM32 : ℤ := 0x83
def COAST : ℤ := 0x0
def BRAKE : ℤ := 0x1
def LONGRAMP : ℤ := 50
def TIMESPEED : ℤ := 0xAF

/-! ### Command encoder (`_motorCommand` and its inner `getRunValues`) -/

/-- `getRunValues(run)` from `_motorCommand`: variable-width run-length
encoding, 3 bytes (`NUM16` marker) for `run < 0x7fff`, otherwise 5 bytes
(`NUM32` marker), payload little-endian via JavaScript `>>` and `& 0xff`. -/
def getRunValues (run : ℤ) : List ℤ :=
  if run < 0x7fff then
    [NUM16, jsAnd255 run, jsAnd255 (jsShr run 8)]
  else
    [NUM32, jsAnd255 run, jsAnd255 (jsShr run 8),
      jsAnd255 (jsShr run 16), jsAnd255 (jsShr run 24)]

/-- The ramp/run derivation inside `_motorCommand` (lines 280-287):
`rampup = rampdown = ramp`, `run = n - ramp * 2`; if `run < 0` then
`rampup = Math.floor(n / 2)`, `run = 0`, `rampdown = n - rampup`.
Returns `(rampup, run, rampdown)`. -/
def rampProfile (n ramp : ℤ) : ℤ × ℤ × ℤ :=
  if n - ramp * 2 < 0 then (n / 2, 0, n - n / 2)
  else (ramp, n - ramp * 2, ramp)

/-- The body of `_motorCommand` after the sign normalization of lines
266-271: `dir = (n < 0) ? 0x100 - speed : speed`, `n = Math.abs(n)`,
ramp profile, then the emitted instruction byte list (lines 273-303). -/
def motorBody (command port n speed ramp : ℤ) : List ℤ :=
  let dir := if n < 0 then 0x100 - speed else speed
  let rp := rampProfile (abs n) ramp
  [command, LAYER, port, NUM8, jsAnd255 dir, NUM8, rp.1] ++
    getRunValues rp.2.1 ++ [NUM8, rp.2.2, BRAKE]

/-- `_motorCommand(command, port, n, speed, ramp)`: if `speed < 0`, make
it positive and multiply `n` by `-1` (lines 266-271), then run the rest
of the body (`motorBody`). -/
def motorCommand (command port n speed ramp : ℤ) : List ℤ :=
  motorBody command port (if speed < 0 then -1 * n else n)
    (if speed < 0 then -1 * speed else speed) ramp

/-- `_applyPrefix(n, cmd)`: the frame builder. `len = cmd.length + 5`;
prepends `[len & 0xff, (len >> 8) & 0xff, 0x1, 0x0, 0x0, n, 0x0]` to the
instruction. -/
def buildFrame (n : ℤ) (cmd : List ℤ) : List ℤ :=
  let len : ℤ := (cmd.length : ℤ) + 5
  [jsAnd255 len, jsAnd255 (jsShr len 8), 0x1, 0x0, 0x0, n, 0x0] ++ cmd

/-! ### Transport codec (`_arrayBufferToBase64`, i.e. `window.btoa` over the
byte string) -/

def base64Alphabet : List Char :=
  ['A', 'B', 'C', 'D', 'E', 'F', 'G', 'H', 'I', 'J', 'K', 'L', 'M',
   'N', 'O', 'P', 'Q', 'R', 'S', 'T', 'U', 'V', 'W', 'X', 'Y', 'Z',
   'a', 'b', 'c', 'd', 'e', 'f', 'g', 'h', 'i', 'j', 'k', 'l', 'm',
   'n', 'o', 'p', 'q', 'r', 's', 't', 'u', 'v', 'w', 'x', 'y', 'z',
   '0', '1', '2', '3', '4', '5', '6', '7', '8', '9', '+', '/']

def b64Char (n : ℕ) : Char := base64Alphabet.getD n (Char.ofNat 65)

/-- Standard base64 of a byte list (the browser `btoa` applied to the
binary string built by `_arrayBufferToBase64`). -/
def btoaChars : List ℕ → List Char
  | [] => []
  | [a] => [b64Char (a / 4), b64Char (a % 4 * 16), '=', '=']
  | [a, b] => [b64Char (a / 4), b64Char (a % 4 * 16 + b / 16),
               b64Char (b % 16 * 4), '=']
  | a :: b :: c :: rest =>
      b64Char (a / 4) :: b64Char (a % 4 * 16 + b / 16) ::
        b64Char (b % 16 * 4 + c / 64) :: b64Char (c % 64) :: btoaChars rest

def arrayBufferToBase64 (buffer : List ℤ) : String :=
  String.mk (btoaChars (buffer.map Int.toNat))

/-! ### Port menu (`MOTOR_PORTS` and `_buildMenu`) -/

structure PortInfo where
  name : String
  value : ℤ
deriving DecidableEq

structure MenuEntry where
  text : String
  value : String
deriving DecidableEq

/-- The declared motor ports: bit-flag values matching the labels on the
EV3 hub. -/
def MOTOR_PORTS : List PortInfo :=
  [⟨"A", 1⟩, ⟨"B", 2⟩, ⟨"C", 4⟩, ⟨"D", 8⟩]

/-- `_buildMenu(info)`: menu entries whose `text` is the port name and
whose `value` is `String(index + 1)` — one-indexed, discarding the
declared `value` field. -/
def buildMenu (info : List PortInfo) : List MenuEntry :=
  info.mapIdx fun index entry => ⟨entry.name, toString (index + 1)⟩

/-- Modelled from the spec: `Cast.toNumber` (from `src/util/cast.js`) is
required by the extension but its source is not under `src/`; the spec
says the dispatcher receives "a command name plus numeric/string
arguments" and converts them to numbers. Modelled for the non-negative
decimal digit strings the port menu produces. -/
def castToNumber (s : String) : ℤ :=
  ((s.toList.foldl (fun acc ch => acc * 10 + (ch.toNat - 48)) 0 : ℕ) : ℤ)

/-! ### Command dispatcher (`motorTurnClockwise`,
`motorTurnCounterClockwise`, `beep`)

Each operation is modelled as a function of the extension state and the
block arguments, returning the list of messages passed to
`bt.sendMessage` and the artificial resolution delay in milliseconds
(`none` when the operation returns `undefined` immediately because the
hub is not connected). -/

structure Ev3State where
  connected : Bool
  speed : ℤ
deriving DecidableEq

/-- The extension state right after construction: not connected, default
speed 50. -/
def initialEv3State : Ev3State := { connected := false, speed := 50 }

def motorTurnClockwise (st : Ev3State) (PORT : String) (TIME : ℤ) :
    List String × Option ℤ :=
  if !st.connected then ([], none)
  else
    let port := castToNumber PORT
    let time := TIME * 1000
    let cmd := buildFrame 0 (motorCommand TIMESPEED port time st.speed LONGRAMP)
    ([arrayBufferToBase64 cmd], some time)

def motorTurnCounterClockwise (st : Ev3State) (PORT : String) (TIME : ℤ) :
    List String × Option ℤ :=
  if !st.connected then ([], none)
  else
    let port := castToNumber PORT
    let time := TIME * 1000
    let cmd := buildFrame 0
      (motorCommand TIMESPEED port time (st.speed * -1) LONGRAMP)
    ([arrayBufferToBase64 cmd], some time)

/-- The fixed pre-encoded beep frame sent by `beep()`. -/
def beepMessage : String := "DwAAAIAAAJQBgQKC6AOC6AM="

def beep (st : Ev3State) : List String × Option ℤ :=
  if !st.connected then ([], none)
  else ([beepMessage], some 0)

/-! ### Connection state machine (`didReceiveCall`, `_connect`)

The state of the Bluetooth session: the `connected` boolean of the
source, whether a `connectDevice` call has been issued whose promise has
not yet settled, how many `connectDevice` calls have been issued, and
whether scanning has been requested (`_scan`); events are the transport
callbacks delivered to `didReceiveCall` and the settlement of the
`connectDevice` promise. -/

structure BTState where
  connected : Bool
  pendingConnect : Bool
  connectCalls : ℕ
  scanning : Bool
deriving DecidableEq

inductive BTEvent where
  | didDiscoverPeripheral (peripheralId : ℕ)
  | didReceiveMessage
  | connectResolved
  | connectRejected
deriving DecidableEq

/-- `_connect(peripheralId)`: sets `connected = true` immediately and
issues a `connectDevice` call whose result is pending. -/
def connectAttempt (st : BTState) : BTState :=
  { st with connected := true, pendingConnect := true,
            connectCalls := st.connectCalls + 1 }

/-- One event of the session: `didDiscoverPeripheral` calls `_connect`
iff `!this.connected`; `didReceiveMessage` only logs; resolution of the
`connectDevice` promise only logs; rejection sets `connected = false`. -/
def step (st : BTState) : BTEvent → BTState
  | .didDiscoverPeripheral _ => if !st.connected then connectAttempt st else st
  | .didReceiveMessage => st
  | .connectResolved => { st with pendingConnect := false }
  | .connectRejected => { st with connected := false, pendingConnect := false }

/-- Session state once the constructor's delayed `_scan()` has run:
scanning, not connected, no connect call issued. -/
def initBTState : BTState :=
  { connected := false, pendingConnect := false, connectCalls := 0,
    scanning := true }

def runEvents (st : BTState) (es : List BTEvent) : BTState := es.foldl step st

/-! ## Helper lemmas -/

/-- For a value already in `[0, 2^31)`, the JavaScript 32-bit coercion is
the identity. -/
lemma toInt32_eq_self (x : ℤ) (h0 : 0 ≤ x) (h1 : x < 2 ^ 31) : toInt32 x = x := by
  unfold toInt32
  omega

/-- Reassembling the four little-endian bytes produced by `>>`/`& 0xff`
recovers any value below `2 ^ 32`. -/
lemma jsBytes4_recover (v : ℤ) (h0 : 0 ≤ v) (h1 : v < 2 ^ 32) :
    jsAnd255 v + 256 * jsAnd255 (jsShr v 8) + 65536 * jsAnd255 (jsShr v 16) +
      16777216 * jsAnd255 (jsShr v 24) = v := by
  unfold jsAnd255 jsShr toInt32
  norm_num
  omega

/-- Reassembling the two little-endian bytes produced by `>>`/`& 0xff`
recovers any value below `2 ^ 16`. -/
lemma jsBytes2_recover (v : ℤ) (h0 : 0 ≤ v) (h1 : v < 2 ^ 16) :
    jsAnd255 v + 256 * jsAnd255 (jsShr v 8) = v := by
  unfold jsAnd255 jsShr toInt32
  norm_num
  omega

/-! ## Claims -/

/-- C1: ramp-profile derivation in the motor-command encoder. For every
non-negative duration `d` and ramp constant `r`: if `2r > d` then
`rampUp + rampDown = d` and the steady run is `0`; if `2r ≤ d` then
`rampUp = rampDown = r` and the steady run is `d - 2r`; in every case
`rampUp + steadyRun + rampDown = d`. -/
theorem ramp_profile_correct (d r : ℤ) (hd : 0 ≤ d) :
    (2 * r > d →
      (rampProfile d r).1 + (rampProfile d r).2.2 = d ∧ (rampProfile d r).2.1 = 0) ∧
    (2 * r ≤ d →
      (rampProfile d r).1 = r ∧ (rampProfile d r).2.2 = r ∧
        (rampProfile d r).2.1 = d - 2 * r) ∧
    (rampProfile d r).1 + (rampProfile d r).2.1 + (rampProfile d r).2.2 = d := by
  unfold rampProfile
  split <;> rename_i h <;> dsimp only <;>
    exact ⟨fun h2 => ⟨by omega, by omega⟩, fun h2 => ⟨by omega, by omega, by omega⟩, by omega⟩

/-- Witness for C1 at `d = 10`, `r = 50` (a motion shorter than twice the
ramp). -/
theorem ramp_profile_correct_witness :
    (rampProfile 10 50).1 + (rampProfile 10 50).2.2 = 10 ∧ (rampProfile 10 50).2.1 = 0 :=
  (ramp_profile_correct 10 50 (by norm_num)).1 (by norm_num)

/-- C2 counterexample: at `run = 2 ^ 32` the claimed round-trip fails;
the JavaScript ToInt32 coercion inside `>>`/`& 0xff` wraps the payload to
the bytes of `0`, so decoding yields `0`, not `2 ^ 32`. -/
theorem run_values_wrap_cex :
    getRunValues (2 ^ 32) = [0x83, 0, 0, 0, 0] ∧
    ((0 : ℤ) + 256 * 0 + 65536 * 0 + 16777216 * 0 ≠ (2 ^ 32 : ℤ)) := by
  constructor
  · decide
  · norm_num

/-- C2 (amended): for every run value `run < 0x7fff`, `getRunValues`
produces exactly 3 bytes (marker `0x82` then the value little-endian) and
decoding the two payload bytes recovers `run`; for `0x7fff ≤ run < 2 ^ 32`
it produces exactly 5 bytes (marker `0x83` then four little-endian bytes)
and decoding recovers `run`. (Beyond `2 ^ 32` the payload wraps modulo
`2 ^ 32`.) -/
theorem run_values_roundtrip (n : ℕ) :
    ((n : ℤ) < 0x7fff →
      ∃ b1 b2, getRunValues (n : ℤ) = [0x82, b1, b2] ∧ b1 + 256 * b2 = (n : ℤ)) ∧
    (0x7fff ≤ (n : ℤ) → (n : ℤ) < 2 ^ 32 →
      ∃ b1 b2 b3 b4, getRunValues (n : ℤ) = [0x83, b1, b2, b3, b4] ∧
        b1 + 256 * b2 + 65536 * b3 + 16777216 * b4 = (n : ℤ)) := by
  constructor
  · intro h
    refine ⟨jsAnd255 (n : ℤ), jsAnd255 (jsShr (n : ℤ) 8), ?_, ?_⟩
    · unfold getRunValues
      rw [if_pos h]
      rfl
    · exact jsBytes2_recover _ (by positivity) (by norm_num; omega)
  · intro h h32
    refine ⟨jsAnd255 (n : ℤ), jsAnd255 (jsShr (n : ℤ) 8), jsAnd255 (jsShr (n : ℤ) 16),
      jsAnd255 (jsShr (n : ℤ) 24), ?_, ?_⟩
    · unfold getRunValues
      rw [if_neg (by omega)]
      rfl
    · exact jsBytes4_recover _ (by positivity) h32

/-- Witness for C2 at `run = 900` (the 3-byte branch) and
`run = 100000` (the 5-byte branch). -/
theorem run_values_roundtrip_witness :
    (∃ b1 b2, getRunValues ((900 : ℕ) : ℤ) = [0x82, b1, b2] ∧
      b1 + 256 * b2 = ((900 : ℕ) : ℤ)) ∧
    (∃ b1 b2 b3 b4, getRunValues ((100000 : ℕ) : ℤ) = [0x83, b1, b2, b3, b4] ∧
      b1 + 256 * b2 + 65536 * b3 + 16777216 * b4 = ((100000 : ℕ) : ℤ)) :=
  ⟨(run_values_roundtrip 900).1 (by norm_num),
   (run_values_roundtrip 100000).2 (by norm_num) (by norm_num)⟩

/-- The body encoder is insensitive to the sign of `n` when the speed
magnitude is `0`: the direction byte masks `0x100 - 0` to `0`. -/
lemma motorBody_zero_speed_neg (c p r n : ℤ) :
    motorBody c p n 0 r = motorBody c p (-n) 0 r := by
  unfold motorBody
  rcases lt_trichotomy n 0 with h | h | h
  · rw [if_pos h, if_neg (by omega : ¬ (-n < 0)), abs_neg]
    norm_num [jsAnd255, toInt32]
  · subst h
    norm_num
  · rw [if_neg (by omega : ¬ n < 0), if_pos (by omega : -n < 0), abs_neg]
    norm_num [jsAnd255, toInt32]

/-- C3: direction normalization is sign-consistent. For all speeds `s`
and durations `d`, the encoder on `(speed = -s, n = d)` produces the same
byte sequence as on `(speed = s, n = -d)`, and on `(speed = -s, n = -d)`
the same as on `(speed = s, n = d)`; for a positive in-range speed the
emitted direction byte is `256 - s` when the net direction (`d < 0`) is
negative and `s` otherwise. -/
theorem direction_sign_consistent (c p r s d : ℤ) :
    motorCommand c p d (-s) r = motorCommand c p (-d) s r ∧
    motorCommand c p (-d) (-s) r = motorCommand c p d s r ∧
    (0 < s → s < 256 →
      (motorCommand c p d s r).get? 4 = some (if d < 0 then 256 - s else s)) := by
  rcases lt_trichotomy s 0 with hs | hs | hs
  · have h1 : ¬ (-s < 0) := by omega
    refine ⟨?_, ?_, fun h _ => absurd h (by omega)⟩
    · unfold motorCommand
      rw [if_neg h1, if_neg h1, if_pos hs, if_pos hs]
      norm_num
    · unfold motorCommand
      rw [if_neg h1, if_neg h1, if_pos hs, if_pos hs]
      norm_num
  · subst hs
    refine ⟨?_, ?_, fun h _ => absurd h (by omega)⟩
    · unfold motorCommand
      norm_num
      exact motorBody_zero_speed_neg c p r d
    · unfold motorCommand
      norm_num
      exact (motorBody_zero_speed_neg c p r d).symm
  · have h1 : -s < 0 := by omega
    have h2 : ¬ s < 0 := by omega
    refine ⟨?_, ?_, ?_⟩
    · unfold motorCommand
      rw [if_pos h1, if_pos h1, if_neg h2, if_neg h2]
      norm_num
    · unfold motorCommand
      rw [if_pos h1, if_pos h1, if_neg h2, if_neg h2]
      norm_num
    · intro h0 h256
      unfold motorCommand
      rw [if_neg h2, if_neg h2]
      simp only [motorBody]
      have hdir : jsAnd255 (if d < 0 then 0x100 - s else s) = if d < 0 then 256 - s else s := by
        unfold jsAnd255 toInt32
        split <;> omega
      rw [hdir]
      simp only [List.cons_append, List.get?_cons_succ, List.get?_cons_zero]

/-- Witness for C3: `encode(speed = -40, n = 100)` equals
`encode(speed = 40, n = -100)`, whose direction byte is `256 - 40 = 216`. -/
theorem direction_sign_consistent_witness :
    motorCommand 175 1 100 (-40) 50 = motorCommand 175 1 (-100) 40 50 ∧
    (motorCommand 175 1 (-100) 40 50).get? 4 = some 216 := by
  refine ⟨(direction_sign_consistent 175 1 50 40 100).1, ?_⟩
  have h := (direction_sign_consistent 175 1 50 40 (-100)).2.2 (by norm_num) (by norm_num)
  simpa using h

/-- C4 (code bug): the spec and the declared `MOTOR_PORTS` constants say
the four ports carry the bit-flag values A=1, B=2, C=4, D=8 on the wire,
but `_buildMenu` discards the declared `value` field and produces
one-indexed menu values, which `motorTurnClockwise` casts and places
directly in the port position of the instruction: selecting port C
transmits port byte 3 (and D transmits 4). -/
theorem port_menu_one_indexed_bug :
    (buildMenu MOTOR_PORTS).map MenuEntry.value = [("1" : String), "2", "3", "4"] ∧
    MOTOR_PORTS.map PortInfo.value = [1, 2, 4, 8] ∧
    castToNumber ("3") = 3 ∧
    (motorCommand TIMESPEED (castToNumber ("3")) 1000 50 50).get? 2 = some 3 ∧
    (motorCommand TIMESPEED (castToNumber ("3")) 1000 50 50).get? 2 ≠ some 4 := by
  refine ⟨by decide, by decide, by decide, by decide, by decide⟩

/-- C5 counterexample: the claimed instruction carries steady-run bytes
`lo(0), hi(0)`, but `turnClockwise` on port A for 1 second with speed 50
and ramp 50 emits a steady run of `1000 - 2 * 50 = 900`, whose
little-endian bytes are `132` and `3`. -/
theorem turn_clockwise_bytes_cex :
    motorCommand TIMESPEED 1 1000 50 50 ≠
      [0xAF, 0, 1, 0x81, 50, 0x81, 50, 0x82, 0, 0, 0x81, 50, 1] ∧
    motorCommand TIMESPEED 1 1000 50 50 =
      [0xAF, 0, 1, 0x81, 50, 0x81, 50, 0x82, 132, 3, 0x81, 50, 1] := by
  constructor
  · decide
  · decide

/-- C5 (amended): `turnClockwise(port A, 1 second)` while connected with
default speed 50 and ramp constant 50 produces exactly the instruction
`[opcode, 0, 1, 0x81, 50, 0x81, 50, 0x82, lo(900), hi(900), 0x81, 50, 1]`
(steady run `1000 - 2*50 = 900`), framed with a length field of
`13 + 5 = 18`, base64-encoded, sent exactly once, resolving after
1000 ms. -/
theorem turn_clockwise_end_to_end :
    motorCommand TIMESPEED 1 1000 50 50 =
      [0xAF, 0, 1, 0x81, 50, 0x81, 50, 0x82, 132, 3, 0x81, 50, 1] ∧
    buildFrame 0 (motorCommand TIMESPEED 1 1000 50 50) =
      [18, 0, 1, 0, 0, 0, 0, 0xAF, 0, 1, 0x81, 50, 0x81, 50, 0x82, 132, 3, 0x81, 50, 1] ∧
    (motorCommand TIMESPEED 1 1000 50 50).length + 5 = 18 ∧
    motorTurnClockwise { connected := true, speed := 50 } ("1") 1 =
      (["EgABAAAAAK8AAYEygTKChAOBMgE="], some 1000) := by
  refine ⟨by decide, by decide, by decide, ?_⟩
  decide

/-- C6 counterexample: the two-byte length field is `(length + 5) mod
2 ^ 16`, so for an instruction of 65531 bytes (`length + 5 = 65536`) the
field reads `0`, not `65536`. -/
theorem frame_length_field_wraps_cex :
    (buildFrame 0 (List.replicate 65531 (0 : ℤ))).take 2 = [0, 0] ∧
    (List.replicate 65531 (0 : ℤ)).length + 5 = 65536 := by
  constructor
  · show (buildFrame 0 (List.replicate 65531 (0 : ℤ))).take 2 = [0, 0]
    simp only [buildFrame, List.length_replicate, List.cons_append]
    norm_num [jsAnd255, jsShr, toInt32]
  · rw [List.length_replicate]

/-- C6 (amended): for every addressing byte `n` and instruction `cmd`
with `cmd.length + 5 < 2 ^ 16`, the frame builder prepends exactly the 7
bytes `lo, hi, 0x01, 0x00, 0x00, n, 0x00` to the unmodified instruction,
with `lo + 256 * hi = cmd.length + 5`. (For longer instructions the field
wraps modulo `2 ^ 16`.) -/
theorem frame_prefix_correct (n : ℤ) (cmd : List ℤ)
    (h : (cmd.length : ℤ) + 5 < 65536) :
    ∃ lo hi, buildFrame n cmd = lo :: hi :: 1 :: 0 :: 0 :: n :: 0 :: cmd ∧
      lo + 256 * hi = (cmd.length : ℤ) + 5 := by
  refine ⟨jsAnd255 ((cmd.length : ℤ) + 5), jsAnd255 (jsShr ((cmd.length : ℤ) + 5) 8),
    rfl, ?_⟩
  have h0 : (0 : ℤ) ≤ (cmd.length : ℤ) + 5 := by positivity
  unfold jsAnd255 jsShr toInt32
  norm_num
  omega

/-- Witness for C6 on the 13-byte motor instruction of the end-to-end
scenario: the length field decodes to 18. -/
theorem frame_prefix_correct_witness :
    ∃ lo hi,
      buildFrame 0 [0xAF, 0, 1, 0x81, 50, 0x81, 50, 0x82, 132, 3, 0x81, 50, 1] =
        lo :: hi :: 1 :: 0 :: 0 :: 0 :: 0 ::
          [0xAF, 0, 1, 0x81, 50, 0x81, 50, 0x82, 132, 3, 0x81, 50, 1] ∧
      lo + 256 * hi =
        (([0xAF, 0, 1, 0x81, 50, 0x81, 50, 0x82, 132, 3, 0x81, 50, 1] : List ℤ).length : ℤ) + 5 :=
  frame_prefix_correct 0 _ (by decide)

/-- C7: while the hub is not connected, each public operation
(`motorTurnClockwise`, `motorTurnCounterClockwise`, `beep`) returns
immediately: it sends no message through the transport and produces no
completion delay. -/
theorem disconnected_ops_send_nothing (st : Ev3State) (h : st.connected = false)
    (PORT : String) (TIME : ℤ) :
    motorTurnClockwise st PORT TIME = ([], none) ∧
    motorTurnCounterClockwise st PORT TIME = ([], none) ∧
    beep st = ([], none) := by
  refine ⟨?_, ?_, ?_⟩ <;>
    simp [motorTurnClockwise, motorTurnCounterClockwise, beep, h]

/-- Witness for C7 in the initial (disconnected) extension state. -/
theorem disconnected_ops_send_nothing_witness :
    motorTurnClockwise initialEv3State ("1") 1 = ([], none) ∧
    motorTurnCounterClockwise initialEv3State ("1") 1 = ([], none) ∧
    beep initialEv3State = ([], none) :=
  disconnected_ops_send_nothing initialEv3State rfl ("1") 1

/-- C8 counterexample: from the initial scanning state, a single
discovery event leaves the session marked connected while the
`connectDevice` result is still pending (and before any successful
acknowledgment: exactly one connect call has been issued and none has
resolved). -/
theorem connected_while_pending_cex :
    (step initBTState (.didDiscoverPeripheral 0)).connected = true ∧
    (step initBTState (.didDiscoverPeripheral 0)).pendingConnect = true ∧
    (step initBTState (.didDiscoverPeripheral 0)).connectCalls = 1 := by
  refine ⟨rfl, rfl, rfl⟩

/-- C8 (amended): `_connect` sets the connected flag optimistically when
the attempt is initiated, so the state is connected while the connect
result is pending; a connect rejection always reverts the flag to false,
and a successful resolution leaves it unchanged (it only clears the
pending attempt). -/
theorem connect_state_transitions (st : BTState) (p : ℕ) (h : st.connected = false) :
    (step st (.didDiscoverPeripheral p)).connected = true ∧
    (step st (.didDiscoverPeripheral p)).pendingConnect = true ∧
    (∀ s : BTState, (step s .connectRejected).connected = false) ∧
    (∀ s : BTState, (step s .connectResolved).connected = s.connected) := by
  refine ⟨?_, ?_, fun s => rfl, fun s => rfl⟩ <;>
    simp [step, connectAttempt, h]

/-- Witness for C8 from the initial scanning state. -/
theorem connect_state_transitions_witness :
    (step initBTState (.didDiscoverPeripheral 0)).connected = true ∧
    (step (connectAttempt initBTState) .connectRejected).connected = false :=
  ⟨(connect_state_transitions initBTState 0 rfl).1,
   (connect_state_transitions initBTState 0 rfl).2.2.1 (connectAttempt initBTState)⟩

/-- While the connected flag holds, discovery events leave the session
state completely unchanged. -/
lemma runEvents_discoveries_connected (st : BTState) (h : st.connected = true)
    (qs : List ℕ) :
    runEvents st (qs.map BTEvent.didDiscoverPeripheral) = st := by
  induction qs with
  | nil => rfl
  | cons q qs ih =>
      have hstep : step st (.didDiscoverPeripheral q) = st := by
        simp [step, h]
      show runEvents (step st (.didDiscoverPeripheral q))
        (qs.map BTEvent.didDiscoverPeripheral) = st
      rw [hstep]
      exact ih

/-- C9: a discovery delivered while the session is already marked
connected (the code's representation of both Connecting and Connected) is
ignored — the state is unchanged, so no further connect call is issued —
and for every sequence of discovery events processed from the initial
scanning state, only the first triggers a connect attempt: the total
number of connect calls is `min(length, 1)`. -/
theorem discovery_only_first_connects (st : BTState) (p : ℕ)
    (h : st.connected = true) (ps : List ℕ) :
    step st (.didDiscoverPeripheral p) = st ∧
    (runEvents initBTState (ps.map BTEvent.didDiscoverPeripheral)).connectCalls =
      min ps.length 1 := by
  constructor
  · simp [step, h]
  · cases ps with
    | nil => rfl
    | cons q qs =>
        have h1 : step initBTState (.didDiscoverPeripheral q) =
            connectAttempt initBTState := rfl
        show (runEvents (step initBTState (.didDiscoverPeripheral q))
          (qs.map BTEvent.didDiscoverPeripheral)).connectCalls = min (qs.length + 1) 1
        rw [h1, runEvents_discoveries_connected _ rfl]
        simp [connectAttempt, initBTState]

/-- Witness for C9: a discovery in a connected state with one issued
connect call changes nothing, and two discoveries from the initial state
yield exactly one connect call. -/
theorem discovery_only_first_connects_witness :
    step { connected := true, pendingConnect := true, connectCalls := 1,
           scanning := true } (.didDiscoverPeripheral 5) =
      { connected := true, pendingConnect := true, connectCalls := 1,
        scanning := true } ∧
    (runEvents initBTState ([7, 8].map BTEvent.didDiscoverPeripheral)).connectCalls =
      min ([7, 8] : List ℕ).length 1 :=
  discovery_only_first_connects
    { connected := true, pendingConnect := true, connectCalls := 1,
      scanning := true } 5 rfl [7, 8]

/-- C10: the only guard on acting upon a discovery is the `connected`
boolean — whenever it is false (in particular right after a connect
rejection reset it) a delivered discovery issues a fresh connect call and
re-marks the session connected; no event ever stops scanning; and
concretely the trace discover, reject, discover issues two connect
calls. -/
theorem retry_after_failed_connect (st : BTState) (p : ℕ)
    (h : st.connected = false) :
    (step st (.didDiscoverPeripheral p)).connected = true ∧
    (step st (.didDiscoverPeripheral p)).connectCalls = st.connectCalls + 1 ∧
    (∀ e : BTEvent, (step st e).scanning = st.scanning) ∧
    (runEvents initBTState [.didDiscoverPeripheral 0, .connectRejected,
      .didDiscoverPeripheral 1]).connectCalls = 2 := by
  refine ⟨?_, ?_, ?_, rfl⟩
  · simp [step, connectAttempt, h]
  · simp [step, connectAttempt, h]
  · intro e
    cases e <;> simp [step, connectAttempt, h]

/-- Witness for C10: the state right after a rejected connect attempt
(connected reset to false) accepts a new discovery and issues a second
connect call. -/
theorem retry_after_failed_connect_witness :
    (step (runEvents initBTState [.didDiscoverPeripheral 0, .connectRejected])
      (.didDiscoverPeripheral 1)).connected = true ∧
    (step (runEvents initBTState [.didDiscoverPeripheral 0, .connectRejected])
      (.didDiscoverPeripheral 1)).connectCalls =
      (runEvents initBTState [.didDiscoverPeripheral 0, .connectRejected]).connectCalls + 1 :=
  ⟨(retry_after_failed_connect
      (runEvents initBTState [.didDiscoverPeripheral 0, .connectRejected]) 1 rfl).1,
   (retry_after_failed_connect
      (runEvents initBTState [.didDiscoverPeripheral 0, .connectRejected]) 1 rfl).2.1⟩
